import Mathlib

/-!
Shallow embedding of the cognitive-honeypot request-classification, risk-scoring
and deception-engine core (`web_honeypot.py`, `genai_engine.py`, `ssh_honeypot.py`),
together with theorems settling the specification claims.

Text is modelled as `List Char`; identities (IP strings) as `String`.
-/

namespace Honeypot

/-- Text as a list of characters (Python `str`). -/
abbrev Str := List Char

/-- Coerce a Lean string literal to the text model. -/
def str (s : String) : Str := s.data

/-- The per-identity counter map `failed_attempts = defaultdict(int)`. -/
abbrev IdSt := String → Nat

/-- ASCII lower-casing of one character, as Python `str.lower` acts on ASCII. -/
def pyLower (c : Char) : Char :=
  if 65 ≤ c.toNat ∧ c.toNat ≤ 90 then Char.ofNat (c.toNat + 32) else c

/-- Lower-casing of a text, as `payload.lower()` / `path.lower()`. -/
def lowerStr (s : Str) : Str := s.map pyLower

/-- Does the first list start with the second (`startsWithL l pat`)? -/
def startsWithL : Str → Str → Bool
  | _, [] => true
  | [], _ :: _ => false
  | c :: cs, d :: ds => c = d && startsWithL cs ds

/-- Substring containment, Python `sub in s` (here `containsSub s sub`). -/
def containsSub : Str → Str → Bool
  | [], sub => sub.isEmpty
  | c :: cs, sub => startsWithL (c :: cs) sub || containsSub cs sub

/-- Word characters of the regex class `\w` (ASCII range). -/
def isWordChar (c : Char) : Bool :=
  (65 ≤ c.toNat && c.toNat ≤ 90) || (97 ≤ c.toNat && c.toNat ≤ 122)
    || (48 ≤ c.toNat && c.toNat ≤ 57) || c = '_'

/-- Whitespace characters of the regex class `\s` (ASCII range). -/
def isPyWs (c : Char) : Bool :=
  c = ' ' || c = '\t' || c = '\n' || c = '\r' || c = '\x0b' || c = '\x0c'

/-- Search for `.*(=|like)` from the current position: some later position,
reachable without crossing a newline, starts with `=` or `like`. -/
def eqLikeAfter : Str → Bool
  | [] => false
  | c :: rest =>
    c = '=' || startsWithL (c :: rest) (str "like") || (!(c = '\n') && eqLikeAfter rest)

/-- Does the word `w` occur at the head of `s` with `\b` boundaries on both
sides, `prev` being the character preceding the current position? -/
def wordAt (w : Str) (prev : Option Char) (s : Str) : Bool :=
  startsWithL s w
    && (match prev with | none => true | some c => !isWordChar c)
    && (match s.drop w.length with | [] => true | d :: _ => !isWordChar d)

/-- Match of `(\bor\b|\band\b).*(=|like)` anchored at the current position. -/
def orAndThenCmp (prev : Option Char) (s : Str) : Bool :=
  (wordAt (str "or") prev s && eqLikeAfter (s.drop 2))
    || (wordAt (str "and") prev s && eqLikeAfter (s.drop 3))

/-- `re.search` of the boolean-tautology SQLi pattern over the whole text. -/
def sqliP1 : Option Char → Str → Bool
  | _, [] => false
  | prev, c :: rest => orAndThenCmp prev (c :: rest) || sqliP1 (some c) rest

/-- Search for `.*w` from the current position without crossing a newline. -/
def afterGap (w : Str) : Str → Bool
  | [] => startsWithL [] w
  | c :: rest => startsWithL (c :: rest) w || (!(c = '\n') && afterGap w rest)

/-- `re.search` of `w1.*w2` over the whole text. -/
def seqPat (w1 w2 : Str) : Str → Bool
  | [] => startsWithL [] w1 && afterGap w2 []
  | c :: rest =>
    (startsWithL (c :: rest) w1 && afterGap w2 ((c :: rest).drop w1.length))
      || seqPat w1 w2 rest

/-- Search for `\s+table` from the current position (`\s+` then `table`). -/
def wsThenTable : Str → Bool
  | [] => false
  | c :: rest => isPyWs c && (startsWithL rest (str "table") || wsThenTable rest)

/-- `re.search` of `drop\s+table` over the whole text. -/
def dropTablePat : Str → Bool
  | [] => false
  | c :: rest =>
    (startsWithL (c :: rest) (str "drop") && wsThenTable ((c :: rest).drop 4))
      || dropTablePat rest

/-- `re.search` of `<script.*?>` over the whole text. -/
def scriptTagPat : Str → Bool
  | [] => false
  | c :: rest =>
    (startsWithL (c :: rest) (str "<script") && afterGap (str ">") ((c :: rest).drop 7))
      || scriptTagPat rest

/-- `is_sqli(payload)`: lower-case the payload, then search each SQLI pattern. -/
def is_sqli (payload : Str) : Bool :=
  sqliP1 none (lowerStr payload)
    || seqPat (str "union") (str "select") (lowerStr payload)
    || seqPat (str "select") (str "from") (lowerStr payload)
    || dropTablePat (lowerStr payload)
    || containsSub (lowerStr payload) (str "'--")
    || containsSub (lowerStr payload) (str "\"--")
    || containsSub (lowerStr payload) (str ";--")

/-- `is_xss(payload)`: lower-case the payload, then search each XSS pattern. -/
def is_xss (payload : Str) : Bool :=
  scriptTagPat (lowerStr payload)
    || containsSub (lowerStr payload) (str "javascript:")
    || containsSub (lowerStr payload) (str "onerror=")
    || containsSub (lowerStr payload) (str "onload=")

/-! ## Risk scorer (`analyze_request`) -/

/-- Is the path one of the admin/login paths, `path in ["/admin", "/login"]`? -/
def qualPath (path : Str) : Bool :=
  decide (path = str "/admin") || decide (path = str "/login")

/-- Reconnaissance markers checked against the lowered path. -/
def SCAN_MARKERS : List Str := [str "phpmyadmin", str "wp-admin", str ".env", str "config"]

/-- Scanner detection, `any(p in path.lower() for p in [...])`. -/
def scanHit (path : Str) : Bool :=
  SCAN_MARKERS.any (fun p => containsSub (lowerStr path) p)

/-- Counter map after the interaction: `failed_attempts[ip] += 1` exactly when
the path is an admin/login path. -/
def stAfter (st : IdSt) (ip : String) (path : Str) : IdSt :=
  if qualPath path then (fun x => if x = ip then st x + 1 else st x) else st

/-- Brute-force detection, `failed_attempts[ip] > 5` read after the increment. -/
def bruteHit (st : IdSt) (ip : String) (path : Str) : Bool :=
  qualPath path && decide (5 < stAfter st ip path ip)

/-- Risk score accumulated by `analyze_request`: `risk += 5 / 5 / 3 / 2` for
the SQLi, XSS, Bruteforce and Scanner checks, in that order. -/
def riskOf (st : IdSt) (ip : String) (path data : Str) : Int :=
  (if is_sqli data then (5 : Int) else 0) + (if is_xss data then 5 else 0)
    + (if bruteHit st ip path then 3 else 0) + (if scanHit path then 2 else 0)

/-- Tags appended by the four detection checks, in check order. -/
def tagsPre (st : IdSt) (ip : String) (path data : Str) : List String :=
  (if is_sqli data then ["SQLi"] else []) ++ (if is_xss data then ["XSS"] else [])
    ++ (if bruteHit st ip path then ["Bruteforce"] else [])
    ++ (if scanHit path then ["Scanner"] else [])

/-- Final tag list: the sentinel `"Low-Risk"` is appended when `risk == 0`. -/
def tagsOf (st : IdSt) (ip : String) (path data : Str) : List String :=
  if riskOf st ip path data = 0 then tagsPre st ip path data ++ ["Low-Risk"]
  else tagsPre st ip path data

/-- Result of `analyze_request`: the returned `(risk, tags)` pair together
with the updated `failed_attempts` map. -/
structure AnalyzeResult where
  risk : Int
  tags : List String
  state : IdSt

/-- `analyze_request(ip, path, data_str)` over an explicit counter map. -/
def analyze_request (st : IdSt) (ip : String) (path data : Str) : AnalyzeResult :=
  ⟨riskOf st ip path data, tagsOf st ip path data, stAfter st ip path⟩

/-! ## Deception engine (`genai_engine.py`) -/

/-- Fixed pool of fake filenames. -/
def FAKE_FILES : List String :=
  ["users.db", "config.yaml", "backup.sql", "secrets.txt", "logs.txt", "app.py",
   "admin_panel.php"]

/-- Fixed pool of fake passwords. -/
def FAKE_PASSWORDS : List String :=
  ["P@ssw0rd!", "admin123", "changeme", "root@123", "welcome1"]

/-- Fixed pool of generic error messages used by `fake_error`. -/
def ERRORS : List String :=
  ["Permission denied.", "Access denied.", "Internal server error.",
   "Invalid request.", "Operation failed."]

/-- `juicy_secrets()` with the random draws (password choice, API-key and
AWS-secret numbers, timestamp) made explicit parameters. -/
def juicy_secrets (pw : String) (api aws : Nat) (ts : String) : String :=
  "\n# Leaked Secrets (FAKE)\nDB_USER=admin\nDB_PASS=" ++ pw
    ++ "\nAPI_KEY=sk-" ++ toString api ++ "\nAWS_SECRET=AKIA" ++ toString aws
    ++ "\nLAST_ROTATED=" ++ ts ++ "\n"

/-- Python `"\n".join(files)`. -/
def joinNl : List String → String
  | [] => ""
  | [a] => a
  | a :: b :: rest => a ++ "\n" ++ joinNl (b :: rest)

/-- `fake_ls()` with the sampled file subset made an explicit parameter. -/
def fake_ls (sample : List String) : String := joinNl sample

/-- `fake_error()` with the random choice made an explicit index. -/
def fake_error (i : Fin ERRORS.length) : String := ERRORS.get i

/-- `fake_account_locked()`. -/
def fake_account_locked : String :=
  "Account temporarily locked due to too many failed attempts."

/-- `fake_admin_page()` with the random day/month made explicit parameters. -/
def fake_admin_page (day month : Nat) : String :=
  "\n<h2>Admin Dashboard</h2>\n<p>Status: OK</p>\n<p>Active Users: admin, backup, service</p>\n<p>Last Backup: "
    ++ toString day ++ "/0" ++ toString month ++ "/2026</p>\n"

/-- Which generator `generate_response` dispatches to (branch selection is
deterministic; only the generated content is randomized). -/
inductive RKind where
  | juicySecrets
  | accountLocked
  | fakeLs
  | fakeError
  | fakeAdminPage
deriving DecidableEq

/-- `generate_response(attack_type, risk_score, path)`: the branch-selection
policy. `attack_type or "Normal"` maps the empty tag to `"Normal"`; the tag
tests are Python substring tests (`"Scanner" in attack_type` and so on). -/
def generate_response (attack_type : String) (risk_score : Int) (path : Str) : RKind :=
  let a := if attack_type = "" then "Normal" else attack_type
  if decide (5 ≤ risk_score) && (containsSub a.data (str "Scanner")
      || containsSub a.data (str "SQLi") || containsSub a.data (str "XSS")) then
    .juicySecrets
  else if decide (5 ≤ risk_score) && containsSub a.data (str "Bruteforce") then
    .accountLocked
  else if containsSub a.data (str "Scanner") then .fakeLs
  else if containsSub a.data (str "SQLi") || containsSub a.data (str "XSS") then
    .fakeError
  else if containsSub (lowerStr path) (str "admin") then .fakeAdminPage
  else .fakeError

/-- One bundle of random draws for the content generators, as produced by
`random.choice` / `random.randint` / `random.sample` in `genai_engine.py`. -/
structure Draws where
  pw : String
  api : Nat
  aws : Nat
  ts : String
  sample : List String
  errIdx : Fin ERRORS.length
  day : Nat
  month : Nat

/-- The ranges the random draws actually come from in the code. -/
def Draws.Valid (d : Draws) : Prop :=
  d.pw ∈ FAKE_PASSWORDS
    ∧ 1000000 ≤ d.api ∧ d.api ≤ 9999999
    ∧ 10000000 ≤ d.aws ∧ d.aws ≤ 99999999
    ∧ 3 ≤ d.sample.length ∧ d.sample.length ≤ FAKE_FILES.length
    ∧ d.sample.Nodup ∧ (∀ f ∈ d.sample, f ∈ FAKE_FILES)
    ∧ 1 ≤ d.day ∧ d.day ≤ 28 ∧ 1 ≤ d.month ∧ d.month ≤ 9

/-- Render the selected generator's content from the given random draws. -/
def render (r : RKind) (d : Draws) : String :=
  match r with
  | .juicySecrets => juicy_secrets d.pw d.api d.aws d.ts
  | .accountLocked => fake_account_locked
  | .fakeLs => fake_ls d.sample
  | .fakeError => fake_error d.errIdx
  | .fakeAdminPage => fake_admin_page d.day d.month

/-! ## HTTP handlers (`web_honeypot.py` routes) -/

/-- The POST branch of `fake_login` for `/admin` and `/login`:
`payload = f"{username} {password}"` is analyzed, the event is logged, and the
handler always returns the fixed invalid-credentials body with status 401. -/
def fake_login_post (st : IdSt) (ip : String) (path username password : Str) :
    (String × Int) × AnalyzeResult :=
  let r := analyze_request st ip path (username ++ [' '] ++ password)
  (("Invalid credentials. Please try again.", 401), r)

/-- The `catch_all` route: analyze, take `tags[0]` as the attack type
(`"Normal"` when the tag list is empty), and return the generated fake
content with status 200; the random draws are an explicit parameter. -/
def catch_all (st : IdSt) (ip : String) (path data : Str) (d : Draws) :
    (String × Int) × AnalyzeResult :=
  let r := analyze_request st ip path data
  let attack_type := match r.tags with | [] => "Normal" | t :: _ => t
  ((render (generate_response attack_type r.risk path) d, 200), r)

/-! ## Shell session machine (`ssh_honeypot.py`, `handle_client` loop) -/

/-- Split the buffer at the first newline, `buffer.partition("\n")` restricted
to the case where a newline is present. -/
def splitAtNl : Str → Option (Str × Str)
  | [] => none
  | c :: cs =>
    if c = '\n' then some ([], cs)
    else (splitAtNl cs).map (fun p => (c :: p.1, p.2))

/-- One iteration of the line loop's header: the loop runs while the buffer
holds `"\n"` or `"\r"`; `partition("\n")` takes everything up to the first
newline, or the whole buffer when only a carriage return is present. -/
def takeLine (buf : Str) : Option (Str × Str) :=
  match splitAtNl buf with
  | some p => some p
  | none => if buf.contains '\r' then some (buf, []) else none

/-- Python `line.strip()` (ASCII whitespace). -/
def pyStrip (l : Str) : Str :=
  ((l.dropWhile isPyWs).reverse.dropWhile isPyWs).reverse

/-- The prompt sent after each handled line. -/
def prompt : String := "$ "

/-- The logout banner sent on `exit` / `quit`. -/
def logoutMsg : String := "logout\n"

/-- The canned-command table of the shell honeypot. -/
def reply (cmd : Str) : String :=
  if cmd = str "ls" then "config.txt  users.db  backup.sql\n"
  else if cmd = str "whoami" then "root\n"
  else if cmd = str "pwd" then "/root\n"
  else "command not found\n"

/-- Per-connection shell session state: receive buffer, replies sent so far,
and whether the channel has been closed (the `Terminated` state). -/
structure Sess where
  buffer : Str
  sent : List String
  closed : Bool
deriving DecidableEq

/-- Drain completed lines from the buffer: blank lines re-emit the prompt,
`exit`/`quit` emit the logout banner and close the channel (the handler
returns), other commands get their canned reply and a prompt. The fuel
bounds the number of loop iterations; each iteration consumes at least one
buffered character, so `buffer.length + 1` fuel is always enough. -/
def drain : Nat → Sess → Sess
  | 0, s => s
  | Nat.succ fuel, s =>
    if s.closed then s
    else
      match takeLine s.buffer with
      | none => s
      | some (line, rest) =>
        if pyStrip line = [] then
          drain fuel { s with buffer := rest, sent := s.sent ++ [prompt] }
        else if pyStrip line = str "exit" ∨ pyStrip line = str "quit" then
          { buffer := rest, sent := s.sent ++ [logoutMsg], closed := true }
        else
          drain fuel { s with buffer := rest, sent := s.sent ++ [reply (pyStrip line), prompt] }

/-- Receive one chunk of bytes: a closed session processes nothing; otherwise
the chunk is appended to the buffer and completed lines are drained. -/
def recv (s : Sess) (data : Str) : Sess :=
  if s.closed then s
  else drain ((s.buffer ++ data).length + 1) { s with buffer := s.buffer ++ data }

/-- Feed a whole sequence of received chunks to the session. -/
def runChunks (s : Sess) (chunks : List Str) : Sess := chunks.foldl recv s

/-! ## Derived definitions used by the claims -/

/-- The fixed per-tag weights (SQLi 5, XSS 5, Bruteforce 3, Scanner 2,
Low-Risk 0; anything else 0). -/
def weight (t : String) : Int :=
  if t = "SQLi" then 5
  else if t = "XSS" then 5
  else if t = "Bruteforce" then 3
  else if t = "Scanner" then 2
  else 0

/-- Counter map after `k` repeated calls of `analyze_request` with the same
identity, path and payload. -/
def iterSt (st : IdSt) (ip : String) (path data : Str) : Nat → IdSt
  | 0 => st
  | k + 1 => (analyze_request (iterSt st ip path data k) ip path data).state

/-- Counter map after a whole sequence of interactions, each given as
(identity, path, payload). -/
def runEvents (st : IdSt) (evs : List (String × Str × Str)) : IdSt :=
  evs.foldl (fun s e => (analyze_request s e.1 e.2.1 e.2.2).state) st

/-- Marker line that every fabricated leaked-credentials artifact contains. -/
def hasLeakedHeader (s : String) : Bool :=
  containsSub s.data (str "# Leaked Secrets (FAKE)")

/-! ## Sanity checks of the embedding on concrete inputs -/

example : is_sqli (str "admin' OR '1'='1 test") = true := by decide
example : is_sqli (str "") = false := by decide
example : is_xss (str "") = false := by decide
example : is_xss (str "<script>alert(1)</script>") = true := by decide
example : is_sqli (str "hello world") = false := by decide
example : generate_response "Scanner" 2 (str "/phpmyadmin") = .fakeLs := by decide
example : generate_response "SQLi" 5 (str "/admin") = .juicySecrets := by decide
example : generate_response "Scanners" 0 (str "") = .fakeLs := by decide
example : generate_response "" 0 (str "") = .fakeError := by decide
example : generate_response "" 0 (str "/ADMIN/x") = .fakeAdminPage := by decide
example :
    (recv ⟨[], [], false⟩ (str "ls\n")).sent
      = ["config.txt  users.db  backup.sql\n", "$ "] := by decide
example : (recv ⟨[], [], false⟩ (str "exit\n")).closed = true := by decide
example : (recv ⟨[], [], false⟩ (str "exit\n")).sent = ["logout\n"] := by decide
example :
    recv (recv ⟨[], [], false⟩ (str "exit\n")) (str "ls\n")
      = recv ⟨[], [], false⟩ (str "exit\n") := by decide

/-! ## Helper lemmas -/

/-- `Char.ofNat` at a valid code point round-trips through `toNat`. -/
lemma toNat_ofNat_valid (n : Nat) (h : n.isValidChar) : (Char.ofNat n).toNat = n := by
  simp [Char.ofNat, dif_pos h, Char.ofNatAux, Char.toNat, UInt32.toNat, BitVec.toNat_ofNatLt]

/-- ASCII lower-casing of a character is idempotent. -/
lemma pyLower_idem (c : Char) : pyLower (pyLower c) = pyLower c := by
  unfold pyLower
  split
  · rename_i h
    have hv : (c.toNat + 32).isValidChar := by
      unfold Nat.isValidChar
      left
      omega
    rw [toNat_ofNat_valid _ hv]
    rw [if_neg (by omega)]
  · rfl

/-- Lower-casing a text is idempotent. -/
lemma lowerStr_idem (s : Str) : lowerStr (lowerStr s) = lowerStr s := by
  unfold lowerStr
  rw [List.map_map]
  exact List.map_congr_left (fun a _ => pyLower_idem a)

/-! ## Claim theorems -/

/-- Claim C8: the Signature Matcher is deterministic (same text twice gives
identical results) and case-insensitive (its result on any text equals its
result on the lowercased text), for both the SQLi and the XSS matcher. -/
theorem c8_matcher_deterministic_and_case_insensitive (text : Str) :
    (is_sqli text = is_sqli text ∧ is_xss text = is_xss text)
      ∧ is_sqli (lowerStr text) = is_sqli text
      ∧ is_xss (lowerStr text) = is_xss text := by
  refine ⟨⟨rfl, rfl⟩, ?_, ?_⟩ <;> simp [is_sqli, is_xss, lowerStr_idem]

/-- Claim C2: for every interaction, the risk score returned by
`analyze_request` equals the sum of the fixed weights (SQLi 5, XSS 5,
Bruteforce 3, Scanner 2, Low-Risk 0) of exactly the tags in the returned
list, and is therefore a non-negative integer. -/
theorem c2_score_is_sum_of_tag_weights (st : IdSt) (ip : String) (path data : Str) :
    (analyze_request st ip path data).risk
        = ((analyze_request st ip path data).tags.map weight).sum
      ∧ 0 ≤ (analyze_request st ip path data).risk := by
  cases h1 : is_sqli data <;> cases h2 : is_xss data <;>
    cases h3 : bruteHit st ip path <;> cases h4 : scanHit path <;>
      simp [analyze_request, riskOf, tagsOf, tagsPre, h1, h2, h3, h4, weight]

/-- Claim C10: every POST to `/admin` or `/login` is answered with the body
"Invalid credentials. Please try again." and HTTP status 401, regardless of
the submitted credentials and of the computed score and tags. -/
theorem c10_login_always_fails (st : IdSt) (ip : String) (path username password : Str)
    (_hpath : path = str "/admin" ∨ path = str "/login") :
    (fake_login_post st ip path username password).1
      = ("Invalid credentials. Please try again.", 401) := rfl

/-- Witness for C10 at a concrete request. -/
theorem c10_login_always_fails_witness :
    (fake_login_post (fun _ => 0) "10.0.0.1" (str "/admin") (str "root") (str "hunter2")).1
      = ("Invalid credentials. Please try again.", 401) :=
  c10_login_always_fails (fun _ => 0) "10.0.0.1" (str "/admin") (str "root")
    (str "hunter2") (Or.inl rfl)

/-- Counterexample to claim C4 as stated: the tag "Scanners" is not one of
the four known tags, yet the selector takes the Scanner arm (the fabricated
directory listing), not the admin-dashboard or generic-error arm, because
the code tests substring containment, not equality. -/
theorem c4_unknown_tag_counterexample :
    ("Scanners" ∉ ["Scanner", "SQLi", "XSS", "Bruteforce"])
      ∧ generate_response "Scanners" 0 (str "") = RKind.fakeLs
      ∧ RKind.fakeLs ≠ RKind.fakeError ∧ RKind.fakeLs ≠ RKind.fakeAdminPage := by
  exact ⟨by decide, by decide, by decide, by decide⟩

/-- Claim C4 amended: for every tag that does not *contain* any of
"Scanner", "SQLi", "XSS", "Bruteforce" as a substring (including the empty
tag), every score and every path, the selector takes no special arm: it
returns the fabricated admin-dashboard fragment when the path contains
"admin" case-insensitively, and otherwise a generic error message. -/
theorem c4_amended_unknown_tag_falls_through (tag : String) (score : Int) (path : Str)
    (h1 : containsSub tag.data (str "Scanner") = false)
    (h2 : containsSub tag.data (str "SQLi") = false)
    (h3 : containsSub tag.data (str "XSS") = false)
    (h4 : containsSub tag.data (str "Bruteforce") = false) :
    generate_response tag score path
      = if containsSub (lowerStr path) (str "admin") then RKind.fakeAdminPage
        else RKind.fakeError := by
  unfold generate_response
  by_cases he : tag = ""
  · have n1 : containsSub (String.data "Normal") (str "Scanner") = false := by decide
    have n2 : containsSub (String.data "Normal") (str "SQLi") = false := by decide
    have n3 : containsSub (String.data "Normal") (str "XSS") = false := by decide
    have n4 : containsSub (String.data "Normal") (str "Bruteforce") = false := by decide
    simp [he, n1, n2, n3, n4]
  · simp [he, h1, h2, h3, h4]

/-- Witness for the amended C4 at a concrete unknown tag. -/
theorem c4_amended_witness :
    generate_response "Other" 9 (str "/x")
      = if containsSub (lowerStr (str "/x")) (str "admin") then RKind.fakeAdminPage
        else RKind.fakeError :=
  c4_amended_unknown_tag_falls_through "Other" 9 (str "/x")
    (by decide) (by decide) (by decide) (by decide)

/-- A path equal to `/admin` or `/login` is a qualifying path. -/
lemma qualPath_of (path : Str) (hq : path = str "/admin" ∨ path = str "/login") :
    qualPath path = true := by
  rcases hq with h | h <;> simp [qualPath, h]

/-- The tag list of `analyze_request` contains "Bruteforce" exactly when the
brute-force check fired. -/
lemma mem_bruteforce (st : IdSt) (ip : String) (path data : Str) :
    "Bruteforce" ∈ (analyze_request st ip path data).tags ↔ bruteHit st ip path = true := by
  cases h1 : is_sqli data <;> cases h2 : is_xss data <;>
    cases h3 : bruteHit st ip path <;> cases h4 : scanHit path <;>
      simp [analyze_request, tagsOf, tagsPre, riskOf, h1, h2, h3, h4]

/-- After `k` repeated qualifying interactions, the caller's own counter has
grown by `k`. -/
lemma iterSt_self (st : IdSt) (ip : String) (path data : Str)
    (hq : qualPath path = true) (k : Nat) :
    iterSt st ip path data k ip = st ip + k := by
  induction k with
  | zero => rfl
  | succ n ih => simp [iterSt, analyze_request, stAfter, hq, ih]; omega

/-- Repeated interactions from one identity leave every other identity's
counter unchanged. -/
lemma iterSt_other (st : IdSt) (ip x : String) (path data : Str)
    (hx : x ≠ ip) (k : Nat) :
    iterSt st ip path data k x = st x := by
  induction k with
  | zero => rfl
  | succ n ih =>
    simp only [iterSt, analyze_request, stAfter]
    split
    · simp [hx, ih]
    · exact ih

/-- Claim C3: for an identity whose counter is fresh, the 1st through 5th
interactions on `/admin` or `/login` do not receive the "Bruteforce" tag and
the 6th and every later one does; an interaction from a different (fresh)
identity neither receives the tag nor changes this identity's counter. -/
theorem c3_bruteforce_threshold (st : IdSt) (ip : String) (path data : Str)
    (h0 : st ip = 0) (hq : path = str "/admin" ∨ path = str "/login") :
    (∀ k, 1 ≤ k →
      ("Bruteforce" ∈ (analyze_request (iterSt st ip path data (k - 1)) ip path data).tags
        ↔ 6 ≤ k))
      ∧ (∀ ip' data' j, ip' ≠ ip → st ip' = 0 →
          "Bruteforce" ∉ (analyze_request (iterSt st ip path data j) ip' path data').tags
            ∧ (analyze_request (iterSt st ip path data j) ip' path data').state ip
                = iterSt st ip path data j ip) := by
  have hqp : qualPath path = true := qualPath_of path hq
  constructor
  · intro k hk
    rw [mem_bruteforce]
    simp [bruteHit, hqp, stAfter, iterSt_self st ip path data hqp, h0]
    omega
  · intro ip' data' j hne h0'
    constructor
    · rw [mem_bruteforce]
      simp [bruteHit, hqp, stAfter, iterSt_other st ip ip' path data hne, h0']
    · simp [analyze_request, stAfter, hqp, Ne.symm hne]

/-- Witness for C3: with a fresh counter on `/admin`, call 1 has no
Bruteforce tag, call 6 has it, and a call by a second fresh identity after
those six has no tag and leaves the first identity's counter alone. -/
theorem c3_bruteforce_threshold_witness :
    ("Bruteforce" ∉
        (analyze_request (iterSt (fun _ => 0) "1.1.1.1" (str "/admin") [] 0)
          "1.1.1.1" (str "/admin") []).tags)
      ∧ ("Bruteforce" ∈
          (analyze_request (iterSt (fun _ => 0) "1.1.1.1" (str "/admin") [] 5)
            "1.1.1.1" (str "/admin") []).tags)
      ∧ ("Bruteforce" ∉
          (analyze_request (iterSt (fun _ => 0) "1.1.1.1" (str "/admin") [] 6)
            "2.2.2.2" (str "/admin") []).tags)
      ∧ (analyze_request (iterSt (fun _ => 0) "1.1.1.1" (str "/admin") [] 6)
            "2.2.2.2" (str "/admin") []).state "1.1.1.1"
          = iterSt (fun _ => 0) "1.1.1.1" (str "/admin") [] 6 "1.1.1.1" := by
  have h := c3_bruteforce_threshold (fun _ => 0) "1.1.1.1" (str "/admin") []
    rfl (Or.inl rfl)
  refine ⟨?_, ?_, ?_, ?_⟩
  · intro hm
    have h6 := (h.1 1 (by omega)).mp hm
    omega
  · exact (h.1 6 (by omega)).mpr (by omega)
  · exact (h.2 "2.2.2.2" [] 6 (by decide) rfl).1
  · exact (h.2 "2.2.2.2" [] 6 (by decide) rfl).2

/-- One interaction never decreases any identity's counter. -/
lemma stAfter_mono (st : IdSt) (ip : String) (path : Str) (x : String) :
    st x ≤ stAfter st ip path x := by
  unfold stAfter
  split
  · by_cases hx : x = ip
    · simp [hx]
    · simp [hx]
  · exact le_refl _

/-- A whole sequence of interactions never decreases any identity's counter. -/
lemma runEvents_mono (evs : List (String × Str × Str)) (st : IdSt) (x : String) :
    st x ≤ runEvents st evs x := by
  induction evs generalizing st with
  | nil => exact le_refl _
  | cons e t ih =>
    simp only [runEvents, List.foldl_cons]
    exact le_trans (stAfter_mono st e.1 e.2.1 x) (ih _)

/-- Claim C6: the per-identity counter is incremented exactly once by each
interaction targeting `/admin` or `/login` (other identities untouched), is
left entirely unchanged by any other interaction, and is monotonically
non-decreasing both per step and over any sequence of interactions. -/
theorem c6_counter_monotone (st : IdSt) (ip : String) (path data : Str) (x : String)
    (evs : List (String × Str × Str)) :
    ((path = str "/admin" ∨ path = str "/login") →
        (analyze_request st ip path data).state ip = st ip + 1
          ∧ ∀ y, y ≠ ip → (analyze_request st ip path data).state y = st y)
      ∧ ((path ≠ str "/admin" ∧ path ≠ str "/login") →
          (analyze_request st ip path data).state = st)
      ∧ st x ≤ (analyze_request st ip path data).state x
      ∧ st x ≤ runEvents st evs x := by
  refine ⟨?_, ?_, ?_, ?_⟩
  · intro hq
    have hqp := qualPath_of path hq
    constructor
    · simp [analyze_request, stAfter, hqp]
    · intro y hy
      simp [analyze_request, stAfter, hqp, hy]
  · intro hn
    simp [analyze_request, stAfter, qualPath, hn.1, hn.2]
  · exact stAfter_mono st ip path x
  · exact runEvents_mono evs st x

/-- Witness for C6 at a concrete qualifying interaction and event list. -/
theorem c6_counter_monotone_witness :
    (analyze_request (fun _ => 0) "5.5.5.5" (str "/login") (str "a b")).state "5.5.5.5"
        = (fun _ => 0 : IdSt) "5.5.5.5" + 1
      ∧ (fun _ => 0 : IdSt) "5.5.5.5"
          ≤ runEvents (fun _ => 0) [("5.5.5.5", str "/login", str "a b")] "5.5.5.5" := by
  have h := c6_counter_monotone (fun _ => 0) "5.5.5.5" (str "/login") (str "a b")
    "5.5.5.5" [("5.5.5.5", str "/login", str "a b")]
  exact ⟨(h.1 (Or.inr rfl)).1, h.2.2.2⟩

/-- A string whose character data is nonempty is not the empty string. -/
lemma ne_empty_of_data_ne_nil (s : String) (h : s.data ≠ []) : s ≠ "" := by
  intro he
  rw [he] at h
  exact h rfl

/-- The leaked-credentials artifact is never the empty string. -/
lemma juicy_secrets_ne_empty (pw : String) (api aws : Nat) (ts : String) :
    juicy_secrets pw api aws ts ≠ "" := by
  apply ne_empty_of_data_ne_nil
  simp only [juicy_secrets, String.data_append]
  intro h
  rw [List.append_eq_nil] at h
  have h1 := h.1
  repeat rw [List.append_eq_nil] at h1
  exact absurd h1.1.1.1.1.1.1.1 (by decide)

/-- The fabricated directory listing is nonempty whenever the sample has at
least three entries. -/
lemma fake_ls_ne_empty (sample : List String) (h : 3 ≤ sample.length) :
    fake_ls sample ≠ "" := by
  match sample, h with
  | a :: b :: t, _ =>
    apply ne_empty_of_data_ne_nil
    simp [fake_ls, joinNl]

/-- Every generic error message is nonempty. -/
lemma fake_error_ne_empty : ∀ i : Fin ERRORS.length, fake_error i ≠ "" := by decide

/-- The admin-dashboard fragment is never the empty string. -/
lemma fake_admin_page_ne_empty (day month : Nat) : fake_admin_page day month ≠ "" := by
  apply ne_empty_of_data_ne_nil
  simp only [fake_admin_page, String.data_append]
  intro h
  rw [List.append_eq_nil] at h
  have h1 := h.1
  repeat rw [List.append_eq_nil] at h1
  exact absurd h1.1.1.1 (by decide)

/-- Claim C5: for every attack-type tag (including the empty string), every
integer risk score and every path (including the empty string), the
Deception Response Selector terminates and, for any random draws from the
code's ranges, returns a non-empty string. -/
theorem c5_selector_total_nonempty (tag : String) (score : Int) (path : Str)
    (d : Draws) (hv : d.Valid) :
    render (generate_response tag score path) d ≠ "" := by
  obtain ⟨_, _, _, _, _, hlen, _⟩ := hv
  cases h : generate_response tag score path <;> simp only [render]
  · exact juicy_secrets_ne_empty _ _ _ _
  · decide
  · exact fake_ls_ne_empty _ hlen
  · exact fake_error_ne_empty _
  · exact fake_admin_page_ne_empty _ _

/-- Witness for C5 at a concrete empty tag, zero score, empty path, and a
concrete valid bundle of random draws. -/
theorem c5_selector_total_nonempty_witness :
    (Draws.mk "P@ssw0rd!" 1000000 10000000 "2026-01-01T00:00:00"
        ["users.db", "config.yaml", "backup.sql"] ⟨0, by decide⟩ 5 3).Valid
      ∧ render (generate_response "" 0 (str ""))
          (Draws.mk "P@ssw0rd!" 1000000 10000000 "2026-01-01T00:00:00"
            ["users.db", "config.yaml", "backup.sql"] ⟨0, by decide⟩ 5 3) ≠ "" := by
  have hv : (Draws.mk "P@ssw0rd!" 1000000 10000000 "2026-01-01T00:00:00"
      ["users.db", "config.yaml", "backup.sql"] ⟨0, by decide⟩ 5 3).Valid := by
    unfold Draws.Valid
    refine ⟨by decide, by decide, by decide, by decide, by decide, by decide, by decide,
      by decide, by decide, by decide, by decide, by decide, by decide⟩
  exact ⟨hv, c5_selector_total_nonempty "" 0 (str "") _ hv⟩

/-- Claim C7: for every process state, an interaction with empty payload on
`/phpmyadmin` gets tags exactly `["Scanner"]`, risk score exactly 2, and the
catch-all handler answers with the fabricated directory listing built from
the sampled files — at least 3 entries, all from the fixed filename pool. -/
theorem c7_phpmyadmin_scanner (st : IdSt) (ip : String) (d : Draws) (hv : d.Valid) :
    (analyze_request st ip (str "/phpmyadmin") []).tags = ["Scanner"]
      ∧ (analyze_request st ip (str "/phpmyadmin") []).risk = 2
      ∧ (catch_all st ip (str "/phpmyadmin") [] d).1.1 = joinNl d.sample
      ∧ (catch_all st ip (str "/phpmyadmin") [] d).1.2 = 200
      ∧ 3 ≤ d.sample.length ∧ ∀ f ∈ d.sample, f ∈ FAKE_FILES := by
  have h1 : is_sqli [] = false := by decide
  have h2 : is_xss [] = false := by decide
  have hq : qualPath (str "/phpmyadmin") = false := by decide
  have hs : scanHit (str "/phpmyadmin") = true := by decide
  have htags : (analyze_request st ip (str "/phpmyadmin") []).tags = ["Scanner"] := by
    simp [analyze_request, tagsOf, tagsPre, riskOf, bruteHit, h1, h2, hq, hs]
  have hrisk : (analyze_request st ip (str "/phpmyadmin") []).risk = 2 := by
    simp [analyze_request, riskOf, bruteHit, h1, h2, hq, hs]
  have hgen : generate_response "Scanner" 2 (str "/phpmyadmin") = RKind.fakeLs := by decide
  refine ⟨htags, hrisk, ?_, rfl, hv.2.2.2.2.2.1, hv.2.2.2.2.2.2.2.2.1⟩
  simp [catch_all, htags, hrisk, hgen, render, fake_ls]

/-- Witness for C7 at a concrete state, identity and draw bundle. -/
theorem c7_phpmyadmin_scanner_witness :
    (analyze_request (fun _ => 3) "7.7.7.7" (str "/phpmyadmin") []).tags = ["Scanner"]
      ∧ (analyze_request (fun _ => 3) "7.7.7.7" (str "/phpmyadmin") []).risk = 2
      ∧ (catch_all (fun _ => 3) "7.7.7.7" (str "/phpmyadmin") []
            (Draws.mk "admin123" 1234567 12345678 "2026-02-02T00:00:00"
              ["secrets.txt", "logs.txt", "app.py", "users.db"] ⟨1, by decide⟩ 28 9)).1.1
          = joinNl ["secrets.txt", "logs.txt", "app.py", "users.db"] := by
  have hv : (Draws.mk "admin123" 1234567 12345678 "2026-02-02T00:00:00"
      ["secrets.txt", "logs.txt", "app.py", "users.db"] ⟨1, by decide⟩ 28 9).Valid := by
    unfold Draws.Valid
    refine ⟨by decide, by decide, by decide, by decide, by decide, by decide, by decide,
      by decide, by decide, by decide, by decide, by decide, by decide⟩
  have h := c7_phpmyadmin_scanner (fun _ => 3) "7.7.7.7"
    (Draws.mk "admin123" 1234567 12345678 "2026-02-02T00:00:00"
      ["secrets.txt", "logs.txt", "app.py", "users.db"] ⟨1, by decide⟩ 28 9) hv
  exact ⟨h.1, h.2.1, h.2.2.1⟩

/-- Every text starts with the empty pattern. -/
lemma startsWithL_nil (l : Str) : startsWithL l [] = true := by
  cases l <;> rfl

/-- A prefix match survives appending on the right. -/
lemma startsWithL_append (a b sub : Str) (h : startsWithL a sub = true) :
    startsWithL (a ++ b) sub = true := by
  induction sub generalizing a with
  | nil => exact startsWithL_nil (a ++ b)
  | cons d ds ih =>
    cases a with
    | nil => cases h
    | cons c cs =>
      simp only [startsWithL, Bool.and_eq_true] at h ⊢
      exact ⟨h.1, ih cs h.2⟩

/-- Every text contains the empty substring. -/
lemma containsSub_nil (l : Str) : containsSub l [] = true := by
  cases l <;> simp [containsSub, startsWithL]

/-- A substring occurrence survives appending on the right. -/
lemma containsSub_append_left (a b sub : Str) (h : containsSub a sub = true) :
    containsSub (a ++ b) sub = true := by
  induction a with
  | nil =>
    simp only [containsSub, List.isEmpty_iff] at h
    rw [h]
    exact containsSub_nil b
  | cons c cs ih =>
    simp only [containsSub, Bool.or_eq_true] at h ⊢
    rcases h with h | h
    · exact Or.inl (startsWithL_append (c :: cs) b sub h)
    · exact Or.inr (ih h)

/-- Every fabricated leaked-credentials artifact carries the fixed
"# Leaked Secrets (FAKE)" header line. -/
lemma juicy_secrets_has_header (pw : String) (api aws : Nat) (ts : String) :
    hasLeakedHeader (juicy_secrets pw api aws ts) = true := by
  unfold hasLeakedHeader juicy_secrets
  simp only [String.data_append]
  repeat apply containsSub_append_left
  decide

/-- Counterexample to claim C1 as stated: at a concrete fresh process state,
the POST to `/admin` with the SQLi username returns the fixed
invalid-credentials body, which does not carry the leaked-credentials
header, so the fabricated leaked-credentials artifact is not returned. -/
theorem c1_response_counterexample :
    (fake_login_post (fun _ => 0) "9.9.9.9" (str "/admin")
        (str "admin' OR '1'='1") (str "test")).1.1
      = "Invalid credentials. Please try again."
      ∧ hasLeakedHeader (fake_login_post (fun _ => 0) "9.9.9.9" (str "/admin")
          (str "admin' OR '1'='1") (str "test")).1.1 = false := by
  exact ⟨rfl, by decide⟩

/-- Claim C1 amended: for every process state, the POST to `/admin` with
username `admin' OR '1'='1` and password `test` yields tags including
"SQLi" and a risk score of at least 5, but the response returned to the
caller is the fixed invalid-credentials body with status 401; the deception
selector, applied to the primary tag SQLi and this score, would have
selected the leaked-credentials artifact, yet the login handler never
invokes it. -/
theorem c1_amended_sqli_admin_post (st : IdSt) (ip : String) :
    "SQLi" ∈ (fake_login_post st ip (str "/admin")
        (str "admin' OR '1'='1") (str "test")).2.tags
      ∧ 5 ≤ (fake_login_post st ip (str "/admin")
          (str "admin' OR '1'='1") (str "test")).2.risk
      ∧ (fake_login_post st ip (str "/admin")
          (str "admin' OR '1'='1") (str "test")).1
        = ("Invalid credentials. Please try again.", 401)
      ∧ generate_response "SQLi"
          (fake_login_post st ip (str "/admin")
            (str "admin' OR '1'='1") (str "test")).2.risk (str "/admin")
        = RKind.juicySecrets := by
  have hsq : is_sqli (str "admin' OR '1'='1" ++ [' '] ++ str "test") = true := by decide
  have hx : is_xss (str "admin' OR '1'='1" ++ [' '] ++ str "test") = false := by decide
  have hsc : scanHit (str "/admin") = false := by decide
  cases hbf : bruteHit st ip (str "/admin") <;>
    refine ⟨?_, ?_, rfl, ?_⟩ <;>
      simp [fake_login_post, analyze_request, tagsOf, tagsPre, riskOf,
        hsq, hx, hsc, hbf] <;> decide

/-- One step of `splitAtNl` across a newline-free prefix. -/
lemma splitAtNl_append (l r : Str) (h : '\n' ∉ l) :
    splitAtNl (l ++ '\n' :: r) = some (l, r) := by
  induction l with
  | nil => simp [splitAtNl]
  | cons c cs ih =>
    have hc : ¬ (c = '\n') := fun hh => h (by rw [hh]; exact List.mem_cons_self '\n' cs)
    have hcs : '\n' ∉ cs := fun hm => h (List.mem_cons_of_mem c hm)
    simp [splitAtNl, hc, ih hcs]

/-- A closed session absorbs every further chunk unchanged. -/
lemma runChunks_closed (s : Sess) (chunks : List Str) (h : s.closed = true) :
    runChunks s chunks = s := by
  induction chunks with
  | nil => rfl
  | cons c t ih =>
    have hr : recv s c = s := by simp [recv, h]
    simp only [runChunks, List.foldl_cons, hr]
    simpa [runChunks] using ih

/-- Claim C9: in every shell session, once a completed non-empty command
line equals `exit` or `quit`, the server emits the logout banner, closes
the channel (the `Terminated` state), and every further chunk from that
connection is ignored: no reply is ever sent again. -/
theorem c9_exit_terminates (s : Sess) (line : Str) (chunks : List Str)
    (hopen : s.closed = false) (hb : '\n' ∉ s.buffer ++ line)
    (hcmd : pyStrip (s.buffer ++ line) = str "exit"
      ∨ pyStrip (s.buffer ++ line) = str "quit") :
    (recv s (line ++ ['\n'])).closed = true
      ∧ (recv s (line ++ ['\n'])).sent = s.sent ++ [logoutMsg]
      ∧ runChunks (recv s (line ++ ['\n'])) chunks = recv s (line ++ ['\n']) := by
  have hsplit : takeLine (s.buffer ++ (line ++ ['\n'])) = some (s.buffer ++ line, []) := by
    have he := (List.append_assoc s.buffer line ['\n']).symm
    simp only [takeLine]
    rw [he, splitAtNl_append _ _ hb]
  have hne : ¬ (pyStrip (s.buffer ++ line) = []) := by
    rcases hcmd with h | h <;> rw [h] <;> decide
  have hrecv : recv s (line ++ ['\n']) = ⟨[], s.sent ++ [logoutMsg], true⟩ := by
    unfold recv
    rw [if_neg (by rw [hopen]; exact Bool.false_ne_true)]
    simp only [drain, hopen, hsplit, Bool.false_eq_true, if_false, hne, if_neg hne, hcmd,
      if_pos hcmd]
    simp
  exact ⟨by rw [hrecv], by rw [hrecv], by rw [hrecv]; exact runChunks_closed _ chunks rfl⟩

/-- Witness for C9: a fresh session receiving `exit` followed by a newline
closes with exactly the logout banner sent, and a later `ls` chunk is
ignored. -/
theorem c9_exit_terminates_witness :
    (recv ⟨[], [], false⟩ (str "exit" ++ ['\n'])).closed = true
      ∧ (recv ⟨[], [], false⟩ (str "exit" ++ ['\n'])).sent
          = Sess.sent ⟨[], [], false⟩ ++ [logoutMsg]
      ∧ runChunks (recv ⟨[], [], false⟩ (str "exit" ++ ['\n'])) [str "ls\n"]
          = recv ⟨[], [], false⟩ (str "exit" ++ ['\n']) :=
  c9_exit_terminates ⟨[], [], false⟩ (str "exit") [str "ls\n"] rfl (by decide)
    (Or.inl (by decide))

end Honeypot
